import Mathlib

/-!
Verification of `bcbio/variation/mutect2.py` (GATK MuTect2 command-line
construction and invocation).

The module is embedded shallowly: each Python function becomes a Lean
definition over explicit inputs.  Collaborator modules that are not part of
this repository (`bcbio.utils`, `bcbio.broad`, `bcbio.bam`,
`bcbio.pipeline.*`, `bcbio.variation.{vcfutils, bamprep, bedutils, gatk,
annotation, ploidy}`, `bcbio.distributed.transaction`, `bcbio.provenance.do`)
appear as abstract function fields of an `Env` record, or, where a claim
depends on their behaviour, are modelled from the specification (marked in
the doc comment).  External effects (indexing commands, the shell command
run) are recorded as an event trace, and the transactional file staging is
modelled on an explicit filesystem map.
-/

/-- A sample item; of the Python dictionaries only the sample name
(`dd.get_sample_name`) is relevant to this module's logic. -/
structure Item where
  sample_name : String
deriving DecidableEq, Repr

/-- The tumor/normal pairing returned by `vcfutils.get_paired_bams`:
tumor BAM and name are always set; normal BAM, normal name and the panel of
normals may be absent (`None`). -/
structure Paired where
  tumor_bam : String
  tumor_name : String
  normal_bam : Option String
  normal_name : String
  normal_panel : Option String
deriving DecidableEq, Repr

/-- All caller-supplied strings a `Paired` value can contribute to a
parameter list (used to state non-collision hypotheses). -/
def Paired.input_strings (p : Paired) : List String :=
  [p.tumor_bam, p.tumor_name, p.normal_name] ++ p.normal_bam.toList ++ p.normal_panel.toList

/-- The `assoc_files` mapping: only the `dbsnp` and `cosmic` keys are read
by this module (`_add_assoc_params`); `None`/missing is `none`. -/
structure AssocFiles where
  dbsnp : Option String
  cosmic : Option String
deriving DecidableEq, Repr

/-- Embedding of `_add_tumor_params(paired, items, gatk_type)`.  A falsy
`paired` raises `ValueError`, embedded as `Except.error` carrying the exact
message; otherwise the parameter list is returned. -/
def add_tumor_params (paired : Option Paired) (items : List Item)
    (gatk_type : String) : Except String (List String) :=
  match paired with
  | none =>
      Except.error ("Specified MuTect2 calling but 'tumor' phenotype not present in batch\n"
        ++ "https://bcbio-nextgen.readthedocs.org/en/latest/contents/"
        ++ "pipelines.html#cancer-variant-calling\n"
        ++ "for samples: " ++ String.intercalate ", " (items.map Item.sample_name))
  | some p =>
      let params : List String :=
        if gatk_type == "gatk4" then
          ["-I", p.tumor_bam] ++ ["--tumor-sample", p.tumor_name]
        else
          ["-I:tumor", p.tumor_bam]
      let params := params ++
        (match p.normal_bam with
         | some nb =>
             if gatk_type == "gatk4" then
               ["-I", nb] ++ ["--normal-sample", p.normal_name]
             else
               ["-I:normal", nb]
         | none => [])
      let params := params ++
        (match p.normal_panel with
         | some np =>
             if gatk_type == "gatk4" then ["--panel-of-normals", np]
             else ["--normal_panel", np]
         | none => [])
      Except.ok params

/-- Embedding of `_add_assoc_params(assoc_files)` (the function exists in the
source but its call site in `mutect2_caller` is commented out). -/
def add_assoc_params (assoc_files : AssocFiles) : List String :=
  (match assoc_files.dbsnp with
   | some d => ["--dbsnp", d]
   | none => []) ++
  (match assoc_files.cosmic with
   | some c => ["--cosmic", c]
   | none => [])

/-- One external effect of `mutect2_caller`: a `picard_index_ref` run, a
`bam.index` run, or the `do.run` of the assembled shell command. -/
inductive Event where
  | indexRef (ref_file : String)
  | indexBam (bam_file : String)
  | runCmd (cmd : String)
deriving DecidableEq, Repr

/-- Embedding of `_prep_inputs(align_bams, ref_file, items)` as the event
trace it produces: one reference-index run, then one BAM-index run per
aligned BAM. -/
def prep_inputs (align_bams : List String) (ref_file : String) : List Event :=
  Event.indexRef ref_file :: align_bams.map Event.indexBam

/-- The environment: results of collaborator modules outside this
repository, taken as opaque inputs of the embedding. -/
structure Env where
  /-- `utils.splitext_plus`: split a path into (base, extension). -/
  splitext_plus : String → String × String
  /-- `broad_runner.gatk_type()`. -/
  gatk_type : String
  /-- `broad_runner.gatk_major_version()` parsed as (major, minor);
  `LooseVersion` comparison on two numeric components is lexicographic. -/
  gatk_major_version : Nat × Nat
  /-- `broad_runner.cl_gatk(params, tmp_dir)`: the assembled GATK command. -/
  cl_gatk : List String → String → String
  /-- Modelled from the spec: `file_transaction` gives a scoped
  temporary-output path for an output file. -/
  tx_path : String → String
  /-- `os.path.dirname`. -/
  dirname : String → String
  /-- `bamprep.region_to_gatk`. -/
  region_to_gatk : String → String
  /-- `subset_variant_regions(population_variant_regions(items), region,
  out_file, items)`: the effective region, `none` when falsy. -/
  subset_region : Option String → String → Option String
  /-- `gatk.standard_cl_params(items)`. -/
  standard_cl_params : List String
  /-- `annotation.get_gatk_annotations(config, include_baseqranksum=False)`. -/
  annotations : List String
  /-- `config_utils.get_resources("mutect2", config).get("options")`,
  `none` when the key is absent, already stringified. -/
  resource_options : Option (List String)
  /-- `ploidy.get_ploidy(items, region)`. -/
  get_ploidy : Nat
  /-- `vcfutils.get_paired_bams(align_bams, items)`. -/
  paired : Option Paired
  /-- Whether the `do.run` shell invocation succeeds (exit status zero). -/
  run_success : Bool
  /-- The content the shell invocation leaves in its output file(s). -/
  run_output : String
  /-- `vcfutils.bgzip_and_index(out_file, config)`: the returned path. -/
  bgzip_and_index : String → String

/-- Embedding of `_add_region_params(region, out_file, items, gatk_type)`:
the effective region comes from `subset_variant_regions` (abstracted in
`Env.subset_region`), flags are added only when it is truthy, and
`gatk.standard_cl_params(items)` is appended. -/
def add_region_params (env : Env) (region : Option String) (out_file : String) :
    List String :=
  (match env.subset_region region out_file with
   | some r =>
       if env.gatk_type == "gatk4" then
         ["-L", env.region_to_gatk r, "--interval-set-rule", "INTERSECTION"]
       else
         ["-L", env.region_to_gatk r, "--interval_set_rule", "INTERSECTION"]
   | none => []) ++ env.standard_cl_params

/-- Embedding of `_mutect2_filter(broad_runner, in_file, out_file)`. -/
def mutect2_filter (env : Env) (in_file : String) (out_file : String) : String :=
  env.cl_gatk ["-T", "FilterMutectCalls", "--variant", in_file, "--output", out_file]
    (env.dirname out_file)

/-- The version assertion `LooseVersion(gatk_major_version) >=
LooseVersion("3.5")` on a (major, minor) version. -/
def version_ok (v : Nat × Nat) : Bool :=
  decide (3 < v.1 ∨ (v.1 = 3 ∧ 5 ≤ v.2))

/-- The parameter list assembled inside `mutect2_caller` before the version
assertion, in source order: fixed `-T`/`-R`/annotation flags, configured
annotations, the GATK4 read-validation flag, tumor/normal parameters,
region parameters, ploidy, and resource options.  (The
`_add_assoc_params` line is commented out in the source; `assoc_files`
is in scope but unused.) -/
def build_params (env : Env) (items : List Item) (ref_file : String)
    (assoc_files : AssocFiles) (region : Option String) (out_file : String) :
    Except String (List String) :=
  let base := ["-T", if env.gatk_type == "gatk4" then "Mutect2" else "MuTect2",
               "-R", ref_file,
               "--annotation", "ClippingRankSumTest",
               "--annotation", "DepthPerSampleHC"]
  let base := base ++ (env.annotations.map (fun a => ["--annotation", a])).flatten
  let base := base ++
    (if env.gatk_type == "gatk4" then ["--read-validation-stringency", "LENIENT"] else [])
  match add_tumor_params env.paired items env.gatk_type with
  | Except.error e => Except.error e
  | Except.ok tparams =>
      Except.ok (base ++ tparams
        ++ add_region_params env region out_file
        ++ ["-ploidy", toString env.get_ploidy]
        ++ (match env.resource_options with
            | some opts => opts
            | none => []))

/-- A filesystem: paths to contents. -/
def FS : Type := String → Option String

/-- Write one file. -/
def fsWrite (fs : FS) (p : String) (c : String) : FS :=
  fun q => if q = p then some c else fs q

/-- Remove one file. -/
def fsErase (fs : FS) (p : String) : FS :=
  fun q => if q = p then none else fs q

/-- Resolution of the `out_file` default: `None` becomes the first aligned
BAM's path with its extension (via `splitext_plus`) replaced by
`-variants.vcf.gz`; an empty BAM list makes the subscript fail. -/
def resolve_out_file (env : Env) (align_bams : List String)
    (out_file : Option String) : Except String String :=
  match out_file with
  | some f => Except.ok f
  | none =>
      match align_bams with
      | [] => Except.error "IndexError: list index out of range"
      | b :: _ => Except.ok ((env.splitext_plus b).1 ++ "-variants.vcf.gz")

/-- Result of a `mutect2_caller` run: the external-process events in order,
the final filesystem, and the returned path or the raised error. -/
structure CallerOut where
  events : List Event
  fs : FS
  result : Except String String

/-- Embedding of `mutect2_caller(align_bams, items, ref_file, assoc_files,
region, out_file)`.

Control flow follows the source: resolve the output path; if it already
exists return immediately; otherwise index the inputs (`_prep_inputs`),
open a file transaction, build the parameter list (which may raise
`ValueError`), assert the GATK version, assemble the command (GATK4: write
a raw file then `FilterMutectCalls`; otherwise pipe through `bgzip`), run
it, and finally `bgzip_and_index` the output.

The file transaction is modelled from the spec: writes inside the block go
to the scoped temporary path(s); on success the temporary output is renamed
to the final path and temporaries are discarded; on failure (a raised error
or a failing command) the temporaries are discarded and the final path is
untouched. -/
def mutect2_caller (env : Env) (fs : FS) (align_bams : List String)
    (items : List Item) (ref_file : String) (assoc_files : AssocFiles)
    (region : Option String) (out_file : Option String) : CallerOut :=
  match resolve_out_file env align_bams out_file with
  | Except.error e => ⟨[], fs, Except.error e⟩
  | Except.ok out =>
      if (fs out).isSome then
        ⟨[], fs, Except.ok (env.bgzip_and_index out)⟩
      else
        let ev := prep_inputs align_bams ref_file
        let tx_out_file := env.tx_path out
        match build_params env items ref_file assoc_files region out with
        | Except.error e => ⟨ev, fs, Except.error e⟩
        | Except.ok params =>
            if version_ok env.gatk_major_version then
              let gatk_cmd := env.cl_gatk params (env.dirname tx_out_file)
              if env.gatk_type == "gatk4" then
                let se := env.splitext_plus tx_out_file
                let tx_raw_file := se.1 ++ "-raw" ++ se.2
                let filter_cmd := mutect2_filter env tx_raw_file tx_out_file
                let cmd := gatk_cmd ++ " -O " ++ tx_raw_file ++ " && " ++ filter_cmd
                let fs1 := fsWrite (fsWrite fs tx_raw_file env.run_output)
                             tx_out_file env.run_output
                if env.run_success then
                  ⟨ev ++ [Event.runCmd cmd],
                   fsWrite (fsErase (fsErase fs1 tx_raw_file) tx_out_file)
                     out env.run_output,
                   Except.ok (env.bgzip_and_index out)⟩
                else
                  ⟨ev ++ [Event.runCmd cmd],
                   fsErase (fsErase fs1 tx_raw_file) tx_out_file,
                   Except.error "MuTect2 command failed"⟩
              else
                let cmd := gatk_cmd ++ " | bgzip -c > " ++ tx_out_file
                let fs1 := fsWrite fs tx_out_file env.run_output
                if env.run_success then
                  ⟨ev ++ [Event.runCmd cmd],
                   fsWrite (fsErase fs1 tx_out_file) out env.run_output,
                   Except.ok (env.bgzip_and_index out)⟩
                else
                  ⟨ev ++ [Event.runCmd cmd],
                   fsErase fs1 tx_out_file,
                   Except.error "MuTect2 command failed"⟩
            else
              ⟨ev, fs, Except.error "Require full version of GATK 3.5+ for mutect2 calling"⟩

/-! ## Theorems -/

/-- The exact `ValueError` message raised by `_add_tumor_params` when no
tumor sample is present. -/
def missing_tumor_message (items : List Item) : String :=
  "Specified MuTect2 calling but 'tumor' phenotype not present in batch\n"
    ++ "https://bcbio-nextgen.readthedocs.org/en/latest/contents/"
    ++ "pipelines.html#cancer-variant-calling\n"
    ++ "for samples: " ++ String.intercalate ", " (items.map Item.sample_name)

/-- C6: with no tumor sample in the batch (falsy `paired`),
`_add_tumor_params` raises a `ValueError` whose message names the missing
'tumor' phenotype and lists the batch's sample names (comma-joined), and no
parameter list is returned; with a tumor sample present it returns a
parameter list and raises nothing. -/
theorem claim_C6_tumor_required (items : List Item) (gatk_type : String) :
    add_tumor_params none items gatk_type = Except.error (missing_tumor_message items) ∧
    (∀ p : Paired, ∃ l, add_tumor_params (some p) items gatk_type = Except.ok l) := by
  refine ⟨rfl, fun p => ⟨_, rfl⟩⟩

/-- C2: for a paired input with a tumor sample under the old (non-"gatk4")
tool version, the parameter list contains the adjacent pair
`-I:tumor`, tumor BAM, and `--tumor-sample` does not occur anywhere in it
(provided no caller-supplied path or name is itself the string
`--tumor-sample`). -/
theorem claim_C2_old_tumor_flags (p : Paired) (items : List Item) (gatk_type : String)
    (l : List String) (hg : gatk_type ≠ "gatk4")
    (hl : add_tumor_params (some p) items gatk_type = Except.ok l)
    (hclean : "--tumor-sample" ∉ p.input_strings) :
    (∃ l1 l2, l = l1 ++ ["-I:tumor", p.tumor_bam] ++ l2) ∧ "--tumor-sample" ∉ l := by
  have hbeq : (gatk_type == "gatk4") = false := by
    simp [hg]
  rcases hnb : p.normal_bam with _ | nb <;>
    rcases hnp : p.normal_panel with _ | np <;>
    simp only [add_tumor_params, hbeq, hnb, hnp, Bool.false_eq_true, if_false,
      List.append_nil, Except.ok.injEq] at hl <;>
    subst hl <;>
    simp only [Paired.input_strings, hnb, hnp, Option.toList_some, Option.toList_none,
      List.mem_append, List.mem_cons, List.not_mem_nil, List.mem_singleton] at hclean <;>
    refine ⟨⟨[], _, rfl⟩, ?_⟩ <;>
    simp_all

/-- C3: for a paired input with a tumor sample under the "gatk4" tool
version, the parameter list contains `-I`, tumor BAM immediately followed by
`--tumor-sample`, tumor name, and when a normal BAM is present it also
contains `-I`, normal BAM immediately followed by `--normal-sample`, normal
name. -/
theorem claim_C3_gatk4_sample_flags (p : Paired) (items : List Item) (l : List String)
    (hl : add_tumor_params (some p) items "gatk4" = Except.ok l) :
    (∃ l2, l = ["-I", p.tumor_bam, "--tumor-sample", p.tumor_name] ++ l2) ∧
    (∀ nb, p.normal_bam = some nb →
      ∃ l1 l2, l = l1 ++ ["-I", nb, "--normal-sample", p.normal_name] ++ l2) := by
  rcases hnb : p.normal_bam with _ | nb <;>
    rcases hnp : p.normal_panel with _ | np <;>
    simp only [add_tumor_params, hnb, hnp, beq_self_eq_true, if_true, List.append_nil,
      Except.ok.injEq, List.cons_append, List.nil_append, reduceIte] at hl <;>
    subst hl <;>
    refine ⟨⟨_, rfl⟩, ?_⟩ <;>
    intro nb' hnb' <;>
    simp only [hnb, Option.some.injEq, reduceCtorEq] at hnb'
  · subst hnb'
    exact ⟨["-I", p.tumor_bam, "--tumor-sample", p.tumor_name], _, rfl⟩
  · subst hnb'
    exact ⟨["-I", p.tumor_bam, "--tumor-sample", p.tumor_name], _, rfl⟩

/-- C4 fails as stated: a paired input with no normal BAM but with a panel
of normals still gets the panel flag.  Concretely, with tumor BAM `t.bam`,
no normal BAM and panel `pon.vcf` under "gatk4", the built list contains
`--panel-of-normals`. -/
theorem claim_C4_counterexample :
    add_tumor_params
        (some { tumor_bam := "t.bam", tumor_name := "tumor1", normal_bam := none,
                normal_name := "", normal_panel := some "pon.vcf" }) [] "gatk4"
      = Except.ok ["-I", "t.bam", "--tumor-sample", "tumor1",
                   "--panel-of-normals", "pon.vcf"] ∧
    "--panel-of-normals" ∈
      ["-I", "t.bam", "--tumor-sample", "tumor1", "--panel-of-normals", "pon.vcf"] := by
  exact ⟨rfl, by decide⟩

/-- C4 (amended): with no normal BAM, the parameter list contains no
`-I:normal` and no `--normal-sample`; the panel-of-normals flags
(`--panel-of-normals` / `--normal_panel`) are additionally absent exactly
when the paired input carries no normal panel (they depend on the panel,
not on the normal BAM).  As in C2, caller-supplied strings are assumed not
to collide with the flag spellings. -/
theorem claim_C4_no_normal_flags (p : Paired) (items : List Item) (gatk_type : String)
    (l : List String) (hnb : p.normal_bam = none)
    (hl : add_tumor_params (some p) items gatk_type = Except.ok l)
    (hclean : ∀ x ∈ ["-I:normal", "--normal-sample", "--panel-of-normals", "--normal_panel"],
      x ∉ p.input_strings) :
    "-I:normal" ∉ l ∧ "--normal-sample" ∉ l ∧
    (p.normal_panel = none → "--panel-of-normals" ∉ l ∧ "--normal_panel" ∉ l) := by
  simp only [List.mem_cons, List.not_mem_nil, forall_eq_or_imp, forall_eq, or_false] at hclean
  obtain ⟨h1, h2, h3, h4⟩ := hclean
  rcases hg : (gatk_type == "gatk4") with _ | _ <;>
    rcases hnp : p.normal_panel with _ | np <;>
    simp only [add_tumor_params, hg, hnb, hnp, Bool.false_eq_true, if_false, if_true,
      List.append_nil, Except.ok.injEq, List.cons_append, List.nil_append, reduceIte] at hl <;>
    subst hl <;>
    simp only [Paired.input_strings, hnb, hnp, Option.toList_some, Option.toList_none,
      List.mem_append, List.mem_cons, List.not_mem_nil, List.mem_singleton,
      or_false, false_or] at h1 h2 h3 h4 <;>
    refine ⟨?_, ?_, ?_⟩ <;>
    simp_all

/-- C5: when a target region survives the `subset_variant_regions` step,
`_add_region_params` produces exactly `-L`, region, interval-set-rule flag
(`--interval-set-rule` for "gatk4", legacy `--interval_set_rule` otherwise),
`INTERSECTION`, followed by the standard parameters, with the `-L` flag
occurring exactly once; when no region results, no `-L` flag appears
(assuming the standard parameters and the converted region string are not
themselves the `-L` token). -/
theorem claim_C5_region_flags (env : Env) (region : Option String)
    (out_file : String) (hstd : "-L" ∉ env.standard_cl_params) :
    (∀ r, env.subset_region region out_file = some r →
      env.region_to_gatk r ≠ "-L" →
      add_region_params env region out_file =
        ["-L", env.region_to_gatk r,
         if env.gatk_type == "gatk4" then "--interval-set-rule" else "--interval_set_rule",
         "INTERSECTION"] ++ env.standard_cl_params ∧
      (add_region_params env region out_file).count "-L" = 1) ∧
    (env.subset_region region out_file = none →
      "-L" ∉ add_region_params env region out_file) := by
  have hcnt : env.standard_cl_params.count "-L" = 0 := List.count_eq_zero.mpr hstd
  constructor
  · intro r hr hne
    rcases hg : (env.gatk_type == "gatk4") with _ | _ <;>
      simp only [add_region_params, hr, hg, Bool.false_eq_true, if_false, if_true,
        reduceIte] <;>
      refine ⟨by trivial, ?_⟩ <;>
      simp [List.count_cons, List.count_append, hcnt, Ne.symm hne]
  · intro hr
    simp [add_region_params, hr, hstd]

/-- `_prep_inputs` produces only indexing events, never a shell-command
run. -/
theorem runCmd_not_mem_prep_inputs (c : String) (bams : List String) (ref : String) :
    Event.runCmd c ∉ prep_inputs bams ref := by
  simp [prep_inputs]

/-- A concrete environment whose installed GATK version (3.4) is below the
required minimum 3.5. -/
def envBad : Env where
  splitext_plus := fun s => (s, "")
  gatk_type := "gatk"
  gatk_major_version := (3, 4)
  cl_gatk := fun _ d => "gatk-cmd " ++ d
  tx_path := fun s => "tmp/" ++ s
  dirname := fun _ => "tmp"
  region_to_gatk := fun s => s
  subset_region := fun r _ => r
  standard_cl_params := []
  annotations := []
  resource_options := none
  get_ploidy := 2
  paired := some { tumor_bam := "t.bam", tumor_name := "tumor1", normal_bam := none,
                   normal_name := "", normal_panel := none }
  run_success := true
  run_output := "vcf-content"
  bgzip_and_index := fun s => s

/-- C1 fails as stated: with GATK 3.4 (below the 3.5 minimum) the call does
abort at the version assertion, but only after `_prep_inputs` has already
invoked the reference- and BAM-indexing external processes — the claim that
no indexing command is run is violated at this concrete input. -/
theorem claim_C1_counterexample :
    version_ok envBad.gatk_major_version = false ∧
    (mutect2_caller envBad (fun _ => none) ["t.bam"] [] "ref.fa"
        { dbsnp := none, cosmic := none } none (some "out.vcf.gz")).events
      = [Event.indexRef "ref.fa", Event.indexBam "t.bam"] ∧
    Event.indexRef "ref.fa" ∈
      (mutect2_caller envBad (fun _ => none) ["t.bam"] [] "ref.fa"
        { dbsnp := none, cosmic := none } none (some "out.vcf.gz")).events ∧
    (mutect2_caller envBad (fun _ => none) ["t.bam"] [] "ref.fa"
        { dbsnp := none, cosmic := none } none (some "out.vcf.gz")).result
      = Except.error "Require full version of GATK 3.5+ for mutect2 calling" := by
  refine ⟨rfl, rfl, ?_, rfl⟩
  decide

/-- C1 (amended): when the installed tool's version is below the minimum
(GATK 3.5), the version assertion fails before the calling command is
invoked — no shell command is run — and the call aborts with the assertion
error; however input indexing (`_prep_inputs`) has already happened by
then, so only the calling command, not every external process, is
prevented. -/
theorem claim_C1_abort_before_calling (env : Env) (fs : FS) (align_bams : List String)
    (items : List Item) (ref_file : String) (assoc_files : AssocFiles)
    (region : Option String) (out_file : Option String)
    (hver : version_ok env.gatk_major_version = false) :
    (∀ c, Event.runCmd c ∉
      (mutect2_caller env fs align_bams items ref_file assoc_files region out_file).events) ∧
    (∀ f params, resolve_out_file env align_bams out_file = Except.ok f →
      fs f = none →
      build_params env items ref_file assoc_files region f = Except.ok params →
      (mutect2_caller env fs align_bams items ref_file assoc_files region out_file).result =
        Except.error "Require full version of GATK 3.5+ for mutect2 calling") := by
  cases hres : resolve_out_file env align_bams out_file with
  | error e =>
      refine ⟨fun c => by simp [mutect2_caller, hres], fun f params hf _ _ => ?_⟩
      exact absurd hf (by simp)
  | ok f =>
      cases hfs : fs f with
      | some v =>
          refine ⟨fun c => by simp [mutect2_caller, hres, hfs], fun f' params hf' hnone _ => ?_⟩
          injection hf' with h
          subst h
          rw [hfs] at hnone
          exact absurd hnone (by simp)
      | none =>
          cases hbp : build_params env items ref_file assoc_files region f with
          | error e =>
              refine ⟨fun c => ?_, fun f' params hf' _ hbp' => ?_⟩
              · simp only [mutect2_caller, hres, hfs, Option.isSome_none, Bool.false_eq_true,
                  if_false, hbp]
                exact runCmd_not_mem_prep_inputs c align_bams ref_file
              · injection hf' with h
                subst h
                rw [hbp] at hbp'
                exact absurd hbp' (by simp)
          | ok ps =>
              refine ⟨fun c => ?_, fun f' params hf' _ _ => ?_⟩
              · simp only [mutect2_caller, hres, hfs, Option.isSome_none, Bool.false_eq_true,
                  if_false, hbp, hver]
                exact runCmd_not_mem_prep_inputs c align_bams ref_file
              · injection hf' with h
                subst h
                simp only [mutect2_caller, hres, hfs, Option.isSome_none, Bool.false_eq_true,
                  if_false, hbp, hver]

/-- C7: when a command is built (output missing, parameters built, version
assertion passed), the "gatk4" tool version produces a command that writes
the caller output to a raw file (`-O <raw>`) and then runs the
`FilterMutectCalls` filtering pass on it (`--variant <raw> --output <tmp>`),
while any other tool version pipes the caller's stdout through `bgzip` into
the temporary output file. -/
theorem claim_C7_postprocessing (env : Env) (fs : FS) (align_bams : List String)
    (items : List Item) (ref_file : String) (assoc_files : AssocFiles)
    (region : Option String) (out_file : Option String) (f : String) (params : List String)
    (hres : resolve_out_file env align_bams out_file = Except.ok f)
    (hfs : fs f = none)
    (hbp : build_params env items ref_file assoc_files region f = Except.ok params)
    (hver : version_ok env.gatk_major_version = true) :
    (env.gatk_type = "gatk4" →
      (mutect2_caller env fs align_bams items ref_file assoc_files region out_file).events
        = prep_inputs align_bams ref_file ++
          [Event.runCmd (env.cl_gatk params (env.dirname (env.tx_path f)) ++ " -O "
            ++ ((env.splitext_plus (env.tx_path f)).1 ++ "-raw"
                ++ (env.splitext_plus (env.tx_path f)).2)
            ++ " && "
            ++ mutect2_filter env
                ((env.splitext_plus (env.tx_path f)).1 ++ "-raw"
                  ++ (env.splitext_plus (env.tx_path f)).2)
                (env.tx_path f))]) ∧
    (env.gatk_type ≠ "gatk4" →
      (mutect2_caller env fs align_bams items ref_file assoc_files region out_file).events
        = prep_inputs align_bams ref_file ++
          [Event.runCmd (env.cl_gatk params (env.dirname (env.tx_path f))
            ++ " | bgzip -c > " ++ env.tx_path f)]) ∧
    (∀ a b, mutect2_filter env a b =
      env.cl_gatk ["-T", "FilterMutectCalls", "--variant", a, "--output", b]
        (env.dirname b)) := by
  refine ⟨?_, ?_, fun a b => rfl⟩
  · intro hg4
    have hbeq : (env.gatk_type == "gatk4") = true := by simp [hg4]
    cases hrs : env.run_success <;>
      simp only [mutect2_caller, hres, hfs, Option.isSome_none, Bool.false_eq_true,
        if_false, hbp, hver, if_true, hbeq, hrs]
  · intro hg4
    have hbeq : (env.gatk_type == "gatk4") = false := by simp [hg4]
    cases hrs : env.run_success <;>
      simp only [mutect2_caller, hres, hfs, Option.isSome_none, Bool.false_eq_true,
        if_false, hbp, hver, if_true, hbeq, hrs]

/-- C8: when the external calling command fails (and the scoped temporary
paths are fresh, as `file_transaction` guarantees), the filesystem after
the call is unchanged at every path — in particular the final output path
holds whatever it held before, and no partially written file is renamed
into place.  (The transactional staging itself is modelled from the spec:
writes go to the scoped temporary paths, which are renamed on success and
discarded on failure.) -/
theorem claim_C8_failed_run_preserves_output (env : Env) (fs : FS)
    (align_bams : List String) (items : List Item) (ref_file : String)
    (assoc_files : AssocFiles) (region : Option String) (out_file : Option String)
    (hrun : env.run_success = false)
    (hfresh : ∀ f, resolve_out_file env align_bams out_file = Except.ok f →
      fs (env.tx_path f) = none ∧
      fs ((env.splitext_plus (env.tx_path f)).1 ++ "-raw"
          ++ (env.splitext_plus (env.tx_path f)).2) = none) :
    ∀ p, (mutect2_caller env fs align_bams items ref_file assoc_files region out_file).fs p
      = fs p := by
  intro p
  cases hres : resolve_out_file env align_bams out_file with
  | error e => simp [mutect2_caller, hres]
  | ok f =>
      obtain ⟨hf1, hf2⟩ := hfresh f hres
      cases hfs : fs f with
      | some v => simp [mutect2_caller, hres, hfs]
      | none =>
          cases hbp : build_params env items ref_file assoc_files region f with
          | error e => simp [mutect2_caller, hres, hfs, hbp]
          | ok ps =>
              cases hver : version_ok env.gatk_major_version with
              | false => simp [mutect2_caller, hres, hfs, hbp, hver]
              | true =>
                  cases hbeq : (env.gatk_type == "gatk4") with
                  | true =>
                      simp only [mutect2_caller, hres, hfs, Option.isSome_none,
                        Bool.false_eq_true, if_false, hbp, hver, if_true, hbeq, hrun]
                      by_cases hp1 : p = env.tx_path f <;>
                        by_cases hp2 : p = (env.splitext_plus (env.tx_path f)).1 ++ "-raw"
                            ++ (env.splitext_plus (env.tx_path f)).2 <;>
                        simp [fsErase, fsWrite, hp1, hp2] <;>
                        simp_all
                  | false =>
                      simp only [mutect2_caller, hres, hfs, Option.isSome_none,
                        Bool.false_eq_true, if_false, hbp, hver, if_true, hbeq, hrun]
                      by_cases hp1 : p = env.tx_path f <;>
                        simp [fsErase, fsWrite, hp1] <;>
                        simp_all

/-- Whatever branch is taken, a normal (non-raising) return of
`mutect2_caller` is always `bgzip_and_index` applied to the resolved
output path. -/
theorem result_ok_is_bgzip_and_index (env : Env) (fs : FS) (align_bams : List String)
    (items : List Item) (ref_file : String) (assoc_files : AssocFiles)
    (region : Option String) (out_file : Option String) (f : String)
    (hres : resolve_out_file env align_bams out_file = Except.ok f) :
    ∀ v, (mutect2_caller env fs align_bams items ref_file assoc_files region out_file).result
        = Except.ok v → v = env.bgzip_and_index f := by
  intro v hv
  cases hfs : fs f with
  | some w =>
      simp only [mutect2_caller, hres, hfs, Option.isSome_some, if_true,
        Except.ok.injEq] at hv
      exact hv.symm
  | none =>
      cases hbp : build_params env items ref_file assoc_files region f with
      | error e => simp [mutect2_caller, hres, hfs, hbp] at hv
      | ok ps =>
          cases hver : version_ok env.gatk_major_version with
          | false => simp [mutect2_caller, hres, hfs, hbp, hver] at hv
          | true =>
              cases hbeq : (env.gatk_type == "gatk4") <;>
                cases hrs : env.run_success <;>
                simp only [mutect2_caller, hres, hfs, Option.isSome_none,
                  Bool.false_eq_true, if_false, hbp, hver, if_true, hbeq, hrs,
                  Except.ok.injEq, reduceCtorEq] at hv <;>
                exact hv.symm

/-- C10: with `out_file = None` the output path defaults to the first
aligned BAM's path with its (zip-aware) extension replaced by
`-variants.vcf.gz`; every normal return of `mutect2_caller` is
`bgzip_and_index` of that path, and when that file already exists all
calling work is skipped (no external event) and the same value is
returned. -/
theorem claim_C10_default_output (env : Env) (fs : FS) (b : String)
    (rest : List String) (items : List Item) (ref_file : String)
    (assoc_files : AssocFiles) (region : Option String) :
    resolve_out_file env (b :: rest) none
      = Except.ok ((env.splitext_plus b).1 ++ "-variants.vcf.gz") ∧
    (∀ v, (mutect2_caller env fs (b :: rest) items ref_file assoc_files region none).result
        = Except.ok v →
      v = env.bgzip_and_index ((env.splitext_plus b).1 ++ "-variants.vcf.gz")) ∧
    ((fs ((env.splitext_plus b).1 ++ "-variants.vcf.gz")).isSome →
      (mutect2_caller env fs (b :: rest) items ref_file assoc_files region none).events = [] ∧
      (mutect2_caller env fs (b :: rest) items ref_file assoc_files region none).result
        = Except.ok (env.bgzip_and_index ((env.splitext_plus b).1 ++ "-variants.vcf.gz"))) := by
  refine ⟨rfl, result_ok_is_bgzip_and_index env fs (b :: rest) items ref_file assoc_files
    region none ((env.splitext_plus b).1 ++ "-variants.vcf.gz") rfl, fun hex => ?_⟩
  constructor <;> simp [mutect2_caller, resolve_out_file, hex]

/-- Every string placed by `_add_tumor_params` is either a fixed flag
spelling or a caller-supplied string of the pairing. -/
theorem mem_add_tumor_params_ok (p : Paired) (items : List Item) (gatk_type : String)
    (l : List String) (x : String)
    (hl : add_tumor_params (some p) items gatk_type = Except.ok l) (hx : x ∈ l) :
    x ∈ ["-I", "--tumor-sample", "-I:tumor", "-I:normal", "--normal-sample",
         "--panel-of-normals", "--normal_panel"] ∨ x ∈ p.input_strings := by
  rcases hg : (gatk_type == "gatk4") with _ | _ <;>
    rcases hnb : p.normal_bam with _ | nb <;>
    rcases hnp : p.normal_panel with _ | np <;>
    simp only [add_tumor_params, hg, hnb, hnp, Bool.false_eq_true, if_false, if_true,
      List.append_nil, Except.ok.injEq, List.cons_append, List.nil_append, reduceIte] at hl <;>
    subst hl <;>
    simp only [Paired.input_strings, hnb, hnp, Option.toList_some, Option.toList_none,
      List.mem_append, List.mem_cons, List.not_mem_nil, List.mem_singleton] at hx ⊢ <;>
    tauto

/-- Every string placed by `_add_region_params` is a fixed flag spelling, a
standard parameter, or a converted region string. -/
theorem mem_add_region_params (env : Env) (region : Option String) (out_file : String)
    (x : String) (hx : x ∈ add_region_params env region out_file) :
    x ∈ ["-L", "--interval-set-rule", "--interval_set_rule", "INTERSECTION"] ∨
    x ∈ env.standard_cl_params ∨ ∃ s, x = env.region_to_gatk s := by
  rcases hsr : env.subset_region region out_file with _ | r
  · simp only [add_region_params, hsr, List.nil_append] at hx
    exact Or.inr (Or.inl hx)
  · rcases hg : (env.gatk_type == "gatk4") with _ | _ <;>
      simp only [add_region_params, hsr, hg, Bool.false_eq_true, if_false, if_true,
        reduceIte, List.cons_append, List.nil_append, List.mem_cons, List.mem_append,
        List.not_mem_nil, or_false] at hx <;>
      rcases hx with hx | hx | hx | hx | hx <;>
      first
        | exact Or.inr (Or.inr ⟨r, hx⟩)
        | exact Or.inr (Or.inl hx)
        | (subst hx; exact Or.inl (by decide))

/-- The caller-supplied strings that can flow into the parameter list of
`mutect2_caller`: the reference path, the ploidy value, the configured
annotations, the standard parameters, the resource options, and the
pairing's paths and names. -/
def caller_input_strings (env : Env) (ref_file : String) : List String :=
  [ref_file, toString env.get_ploidy] ++ env.annotations ++ env.standard_cl_params ++
  (match env.resource_options with
   | some opts => opts
   | none => []) ++
  (match env.paired with
   | some p => p.input_strings
   | none => [])

/-- The fixed flag spellings `mutect2_caller` can place in its parameter
list. -/
def mutect2_literal_flags : List String :=
  ["-T", "Mutect2", "MuTect2", "-R", "--annotation", "ClippingRankSumTest",
   "DepthPerSampleHC", "--read-validation-stringency", "LENIENT",
   "-I", "--tumor-sample", "-I:tumor", "-I:normal", "--normal-sample",
   "--panel-of-normals", "--normal_panel", "-L", "--interval-set-rule",
   "--interval_set_rule", "INTERSECTION", "-ploidy"]

/-- Every string in the assembled parameter list is a fixed flag spelling,
a caller-supplied input string, or a converted region string. -/
theorem mem_build_params (env : Env) (items : List Item) (ref_file : String)
    (assoc_files : AssocFiles) (region : Option String) (out_file : String)
    (ps : List String) (x : String)
    (h : build_params env items ref_file assoc_files region out_file = Except.ok ps)
    (hx : x ∈ ps) :
    x ∈ mutect2_literal_flags ∨ x ∈ caller_input_strings env ref_file ∨
      ∃ s, x = env.region_to_gatk s := by
  cases hpd : env.paired with
  | none => simp [build_params, add_tumor_params, hpd] at h
  | some p =>
      cases htp : add_tumor_params (some p) items env.gatk_type with
      | error e => simp [build_params, hpd, htp] at h
      | ok tparams =>
          simp only [build_params, hpd, htp, Except.ok.injEq] at h
          subst h
          rcases List.mem_append.mp hx with hx | hx5
          · rcases List.mem_append.mp hx with hx | hx4
            · rcases List.mem_append.mp hx with hx | hx3
              · rcases List.mem_append.mp hx with hx | hx2
                · rcases List.mem_append.mp hx with hx | hxC
                  · rcases List.mem_append.mp hx with hxA | hxB
                    · -- fixed leading flags
                      simp only [List.mem_cons, List.not_mem_nil, or_false] at hxA
                      rcases hxA with hx | hx | hx | hx | hx | hx | hx | hx
                      · subst hx; exact Or.inl (by decide)
                      · rcases hg : (env.gatk_type == "gatk4") with _ | _ <;>
                          simp only [hg, Bool.false_eq_true, if_false, if_true,
                            reduceIte] at hx <;>
                          (subst hx; exact Or.inl (by decide))
                      · subst hx; exact Or.inl (by decide)
                      · subst hx
                        exact Or.inr (Or.inl (by simp [caller_input_strings]))
                      · subst hx; exact Or.inl (by decide)
                      · subst hx; exact Or.inl (by decide)
                      · subst hx; exact Or.inl (by decide)
                      · subst hx; exact Or.inl (by decide)
                    · -- configured annotation flags
                      rcases List.mem_flatten.mp hxB with ⟨l1, hl1, hxl⟩
                      rcases List.mem_map.mp hl1 with ⟨a, ha, rfl⟩
                      rcases List.mem_cons.mp hxl with hx2 | hx2
                      · subst hx2; exact Or.inl (by decide)
                      · simp only [List.mem_singleton] at hx2
                        subst hx2
                        refine Or.inr (Or.inl ?_)
                        simp only [caller_input_strings, List.mem_append, List.mem_cons,
                          List.not_mem_nil]
                        tauto
                  · -- gatk4 read-validation flag
                    rcases hg : (env.gatk_type == "gatk4") with _ | _ <;>
                      simp only [hg, Bool.false_eq_true, if_false, if_true, reduceIte,
                        List.mem_cons, List.not_mem_nil, or_false] at hxC
                    rcases hxC with hx | hx <;> (subst hx; exact Or.inl (by decide))
                · -- tumor parameters
                  rcases mem_add_tumor_params_ok p items env.gatk_type tparams x htp hx2
                    with hx | hx
                  · refine Or.inl ?_
                    simp only [List.mem_cons, List.not_mem_nil, or_false] at hx
                    rcases hx with hx | hx | hx | hx | hx | hx | hx <;> (subst hx; decide)
                  · refine Or.inr (Or.inl ?_)
                    simp only [caller_input_strings, hpd, List.mem_append, List.mem_cons,
                      List.not_mem_nil]
                    tauto
              · -- region parameters
                rcases mem_add_region_params env region out_file x hx3 with hx | hx | hx
                · refine Or.inl ?_
                  simp only [List.mem_cons, List.not_mem_nil, or_false] at hx
                  rcases hx with hx | hx | hx | hx <;> (subst hx; decide)
                · refine Or.inr (Or.inl ?_)
                  simp only [caller_input_strings, List.mem_append, List.mem_cons,
                    List.not_mem_nil]
                  tauto
                · exact Or.inr (Or.inr hx)
            · -- ploidy
              rcases List.mem_cons.mp hx4 with hx | hx
              · subst hx; exact Or.inl (by decide)
              · simp only [List.mem_singleton] at hx
                subst hx
                refine Or.inr (Or.inl ?_)
                simp only [caller_input_strings, List.mem_append, List.mem_cons,
                  List.not_mem_nil]
                tauto
          · -- resource options
            rcases hro : env.resource_options with _ | opts <;>
              simp only [hro] at hx5
            · exact absurd hx5 (List.not_mem_nil x)
            · refine Or.inr (Or.inl ?_)
              simp only [caller_input_strings, hro, List.mem_append, List.mem_cons,
                List.not_mem_nil]
              tauto

/-- C9: the parameter list built by `mutect2_caller` is independent of
`assoc_files` (the `_add_assoc_params` step is commented out), and — as long
as no caller-supplied input string is itself `--dbsnp` or `--cosmic` — those
flags never appear in it, even when `assoc_files` carries dbsnp/cosmic
paths; the whole caller run is likewise independent of `assoc_files`. -/
theorem claim_C9_assoc_never_applied (env : Env) (fs : FS) (align_bams : List String)
    (items : List Item) (ref_file : String) (region : Option String)
    (out_file : Option String) (out : String) (af1 af2 : AssocFiles)
    (hclean : "--dbsnp" ∉ caller_input_strings env ref_file ∧
      "--cosmic" ∉ caller_input_strings env ref_file)
    (hreg : ∀ s, env.region_to_gatk s ≠ "--dbsnp" ∧ env.region_to_gatk s ≠ "--cosmic") :
    build_params env items ref_file af1 region out
      = build_params env items ref_file af2 region out ∧
    mutect2_caller env fs align_bams items ref_file af1 region out_file
      = mutect2_caller env fs align_bams items ref_file af2 region out_file ∧
    (∀ ps, build_params env items ref_file af1 region out = Except.ok ps →
      "--dbsnp" ∉ ps ∧ "--cosmic" ∉ ps) := by
  refine ⟨rfl, rfl, fun ps h => ⟨fun hx => ?_, fun hx => ?_⟩⟩
  · rcases mem_build_params env items ref_file af1 region out ps _ h hx with hl | hin | ⟨s, hs⟩
    · exact absurd hl (by decide)
    · exact hclean.1 hin
    · exact (hreg s).1 hs.symm
  · rcases mem_build_params env items ref_file af1 region out ps _ h hx with hl | hin | ⟨s, hs⟩
    · exact absurd hl (by decide)
    · exact hclean.2 hin
    · exact (hreg s).2 hs.symm

/-- A concrete environment with GATK4 and a sufficient version (3.8). -/
def envOk4 : Env := { envBad with gatk_type := "gatk4", gatk_major_version := (3, 8) }

/-- `envOk4` with a failing external command. -/
def envFail : Env := { envOk4 with run_success := false }

/-- `envOk4` with a constant region conversion (for witnesses about region
strings). -/
def envC9 : Env := { envOk4 with region_to_gatk := fun _ => "chr1" }

/-- A filesystem on which the default output file already exists. -/
def fsExisting : FS :=
  fun p => if p = "t.bam-variants.vcf.gz" then some "existing-content" else none

/-- Witness for C1 at a concrete below-minimum version. -/
theorem claim_C1_abort_before_calling_witness :
    Event.runCmd "any-cmd" ∉
      (mutect2_caller envBad (fun _ => none) ["t.bam"] [] "ref.fa"
        { dbsnp := none, cosmic := none } none (some "out.vcf.gz")).events ∧
    (mutect2_caller envBad (fun _ => none) ["t.bam"] [] "ref.fa"
        { dbsnp := none, cosmic := none } none (some "out.vcf.gz")).result
      = Except.error "Require full version of GATK 3.5+ for mutect2 calling" :=
  ⟨(claim_C1_abort_before_calling envBad (fun _ => none) ["t.bam"] [] "ref.fa"
      { dbsnp := none, cosmic := none } none (some "out.vcf.gz") (by decide)).1 "any-cmd",
   (claim_C1_abort_before_calling envBad (fun _ => none) ["t.bam"] [] "ref.fa"
      { dbsnp := none, cosmic := none } none (some "out.vcf.gz") (by decide)).2
     "out.vcf.gz"
     ["-T", "MuTect2", "-R", "ref.fa", "--annotation", "ClippingRankSumTest",
      "--annotation", "DepthPerSampleHC", "-I:tumor", "t.bam", "-ploidy", "2"]
     rfl rfl rfl⟩

/-- Witness for C2 at a concrete old-version paired input. -/
theorem claim_C2_old_tumor_flags_witness :
    (∃ l1 l2, (["-I:tumor", "t2.bam", "-I:normal", "n2.bam", "--normal_panel", "pon2.vcf"]
        : List String) = l1 ++ ["-I:tumor", "t2.bam"] ++ l2) ∧
    "--tumor-sample" ∉
      (["-I:tumor", "t2.bam", "-I:normal", "n2.bam", "--normal_panel", "pon2.vcf"]
        : List String) :=
  claim_C2_old_tumor_flags
    { tumor_bam := "t2.bam", tumor_name := "tumorA", normal_bam := some "n2.bam",
      normal_name := "normalA", normal_panel := some "pon2.vcf" }
    [] "gatk3" _ (by decide) rfl (by decide)

/-- Witness for C3 at a concrete GATK4 paired input with a normal sample. -/
theorem claim_C3_gatk4_sample_flags_witness :
    (∃ l2, (["-I", "t3.bam", "--tumor-sample", "tumorB", "-I", "n3.bam",
        "--normal-sample", "normalB"] : List String)
      = ["-I", "t3.bam", "--tumor-sample", "tumorB"] ++ l2) ∧
    (∀ nb, (some "n3.bam" : Option String) = some nb →
      ∃ l1 l2, (["-I", "t3.bam", "--tumor-sample", "tumorB", "-I", "n3.bam",
          "--normal-sample", "normalB"] : List String)
        = l1 ++ ["-I", nb, "--normal-sample", "normalB"] ++ l2) :=
  claim_C3_gatk4_sample_flags
    { tumor_bam := "t3.bam", tumor_name := "tumorB", normal_bam := some "n3.bam",
      normal_name := "normalB", normal_panel := none }
    [] _ rfl

/-- Witness for the amended C4 at a concrete input without a normal BAM or
panel. -/
theorem claim_C4_no_normal_flags_witness :
    "-I:normal" ∉ (["-I", "t4.bam", "--tumor-sample", "tumorC"] : List String) ∧
    "--normal-sample" ∉ (["-I", "t4.bam", "--tumor-sample", "tumorC"] : List String) ∧
    ((none : Option String) = none →
      "--panel-of-normals" ∉ (["-I", "t4.bam", "--tumor-sample", "tumorC"] : List String) ∧
      "--normal_panel" ∉ (["-I", "t4.bam", "--tumor-sample", "tumorC"] : List String)) :=
  claim_C4_no_normal_flags
    { tumor_bam := "t4.bam", tumor_name := "tumorC", normal_bam := none,
      normal_name := "", normal_panel := none }
    [] "gatk4" _ rfl rfl (by decide)

/-- Witness for C5 at a concrete region and at no region. -/
theorem claim_C5_region_flags_witness :
    add_region_params envBad (some "chr1:1-100") "o.vcf"
      = ["-L", "chr1:1-100", "--interval_set_rule", "INTERSECTION"] ∧
    (add_region_params envBad (some "chr1:1-100") "o.vcf").count "-L" = 1 ∧
    "-L" ∉ add_region_params envBad none "o.vcf" := by
  have h := claim_C5_region_flags envBad (some "chr1:1-100") "o.vcf" (by decide)
  have h1 := h.1 "chr1:1-100" rfl (by decide)
  have h2 := (claim_C5_region_flags envBad none "o.vcf" (by decide)).2 rfl
  exact ⟨h1.1.trans (by decide), h1.2, h2⟩

/-- Witness for C7 at a concrete GATK4 run: the command writes a raw file
and then filters it. -/
theorem claim_C7_postprocessing_witness :
    (mutect2_caller envOk4 (fun _ => none) ["t.bam"] [] "ref.fa"
        { dbsnp := none, cosmic := none } none (some "out.vcf.gz")).events
      = [Event.indexRef "ref.fa", Event.indexBam "t.bam",
         Event.runCmd "gatk-cmd tmp -O tmp/out.vcf.gz-raw && gatk-cmd tmp"] := by
  have h := (claim_C7_postprocessing envOk4 (fun _ => none) ["t.bam"] [] "ref.fa"
    { dbsnp := none, cosmic := none } none (some "out.vcf.gz") "out.vcf.gz"
    ["-T", "Mutect2", "-R", "ref.fa", "--annotation", "ClippingRankSumTest",
     "--annotation", "DepthPerSampleHC", "--read-validation-stringency", "LENIENT",
     "-I", "t.bam", "--tumor-sample", "tumor1", "-ploidy", "2"]
    rfl rfl rfl (by decide)).1 rfl
  exact h.trans (by decide)

/-- Witness for C8 at a concrete failing run: the final output path still
holds nothing. -/
theorem claim_C8_failed_run_preserves_output_witness :
    (mutect2_caller envFail (fun _ => none) ["t.bam"] [] "ref.fa"
        { dbsnp := none, cosmic := none } none (some "out.vcf.gz")).fs "out.vcf.gz"
      = none :=
  claim_C8_failed_run_preserves_output envFail (fun _ => none) ["t.bam"] [] "ref.fa"
    { dbsnp := none, cosmic := none } none (some "out.vcf.gz") rfl
    (fun f hf => by
      injection hf with h
      subst h
      exact ⟨rfl, rfl⟩)
    "out.vcf.gz"

/-- Witness for C9 at concrete assoc files: the parameter list is the same
with and without dbsnp/cosmic paths and contains neither flag. -/
theorem claim_C9_assoc_never_applied_witness :
    build_params envC9 [] "ref.fa"
        { dbsnp := some "dbsnp.vcf", cosmic := some "cosmic.vcf" } none "out.vcf.gz"
      = build_params envC9 [] "ref.fa" { dbsnp := none, cosmic := none } none "out.vcf.gz" ∧
    "--dbsnp" ∉
      (["-T", "Mutect2", "-R", "ref.fa", "--annotation", "ClippingRankSumTest",
        "--annotation", "DepthPerSampleHC", "--read-validation-stringency", "LENIENT",
        "-I", "t.bam", "--tumor-sample", "tumor1", "-ploidy", "2"] : List String) ∧
    "--cosmic" ∉
      (["-T", "Mutect2", "-R", "ref.fa", "--annotation", "ClippingRankSumTest",
        "--annotation", "DepthPerSampleHC", "--read-validation-stringency", "LENIENT",
        "-I", "t.bam", "--tumor-sample", "tumor1", "-ploidy", "2"] : List String) := by
  have h := claim_C9_assoc_never_applied envC9 (fun _ => none) ["t.bam"] [] "ref.fa"
    none (some "out.vcf.gz") "out.vcf.gz"
    { dbsnp := some "dbsnp.vcf", cosmic := some "cosmic.vcf" }
    { dbsnp := none, cosmic := none }
    ⟨by decide, by decide⟩
    (fun s => ⟨(by decide : ("chr1" : String) ≠ "--dbsnp"),
      (by decide : ("chr1" : String) ≠ "--cosmic")⟩)
  have h3 := h.2.2
    ["-T", "Mutect2", "-R", "ref.fa", "--annotation", "ClippingRankSumTest",
     "--annotation", "DepthPerSampleHC", "--read-validation-stringency", "LENIENT",
     "-I", "t.bam", "--tumor-sample", "tumor1", "-ploidy", "2"] rfl
  exact ⟨h.1, h3.1, h3.2⟩

/-- Witness for C10: with `out_file = None` and the default output already
present, no work happens and the indexed default path is returned. -/
theorem claim_C10_default_output_witness :
    (mutect2_caller envOk4 fsExisting ["t.bam"] [] "ref.fa"
        { dbsnp := none, cosmic := none } none none).events = [] ∧
    (mutect2_caller envOk4 fsExisting ["t.bam"] [] "ref.fa"
        { dbsnp := none, cosmic := none } none none).result
      = Except.ok "t.bam-variants.vcf.gz" := by
  have h := (claim_C10_default_output envOk4 fsExisting "t.bam" [] [] "ref.fa"
    { dbsnp := none, cosmic := none } none).2.2 (by decide)
  exact ⟨h.1, h.2⟩
